import Mathlib

/-
Verification of the variable-catalog engine of the inference-realstate
repository: the `Variable` model of `properties/models.py` (its custom
`clean` validation, `get_validation_rules` rule derivation and
`get_choices_display` formatting) and the two catalog-seeding management
commands (`seed_variables.py` and `load_variable_catalog.py`).

The second copy of the model in `models/models.py` has byte-identical
`clean` and `get_validation_rules` bodies, so one embedding covers both.

Decimal fields are embedded as exact rationals (ℚ); the claims under
study concern only presence of keys and comparisons, never float
rounding, and Python's `float(...)` conversion is modelled as the
identity on the stored value.
-/

/-- Value stored in the JSON `choices` field. Across the two schema
variants in the source it is either a plain list of labels
(e.g. `["Plano", "Aclive"]`) or a code-to-label mapping
(e.g. `{"baixo": "Baixo"}`); a Python dict preserves insertion order,
so the mapping is embedded as an association list in insertion order. -/
inductive ChoicesVal where
  | list : List String → ChoicesVal
  | map : List (String × String) → ChoicesVal
deriving DecidableEq, Repr

/-- Python emptiness of the stored JSON value. -/
def ChoicesVal.isEmptyVal : ChoicesVal → Bool
  | .list l => l.isEmpty
  | .map m => m.isEmpty

/-- Python truthiness of the `choices` field: `None`, `[]` and an empty
dict are falsy, everything else truthy. -/
def choicesTruthy : Option ChoicesVal → Bool
  | none => false
  | some c => !c.isEmptyVal

/-- Python truthiness of the `choice_order` field. -/
def orderTruthy : Option (List String) → Bool
  | none => false
  | some l => !l.isEmpty

/-- The fields of the `Variable` Django model that its `clean`,
`get_validation_rules` and `get_choices_display` methods read, plus the
self-referencing `parent_variable` foreign key (held as the referenced
variable's code). Purely presentational columns (help texts, timestamps,
display_order, is_active, …) are never read by those methods and are
omitted. -/
structure Variable where
  code : String
  name : String
  data_type : String
  unit : String
  min_value : Option ℚ
  max_value : Option ℚ
  choices : Option ChoicesVal
  choice_order : Option (List String)
  is_required : Bool
  parent_variable : Option String
deriving DecidableEq, Repr

/-- The two `ValidationError`s that `Variable.clean` can raise:
one keyed on the `choices` field (choice type without options) and one
keyed on the `max_value` field (inverted bounds). -/
inductive CleanError where
  | missingChoices
  | invertedBounds
deriving DecidableEq, Repr

/-- Guard of the bounds check in `Variable.clean`: both values present
and `min_value > max_value`. -/
def minGtMax : Option ℚ → Option ℚ → Bool
  | some mn, some mx => decide (mn > mx)
  | _, _ => false

/-- Embedding of `Variable.clean` (properties/models.py lines 169-188).
It raises for a `choice`-typed record without truthy `choices`, then
raises when both bounds are present and inverted, and otherwise
succeeds, clearing `choices` to `None` whenever `data_type` is not
`'choice'`. The returned record is the (possibly mutated) `self`. -/
def Variable.clean (v : Variable) : Except CleanError Variable :=
  if v.data_type = "choice" ∧ choicesTruthy v.choices = false then
    .error .missingChoices
  else if minGtMax v.min_value v.max_value then
    .error .invertedBounds
  else if v.data_type ≠ "choice" then
    .ok { v with choices := none }
  else
    .ok v

/-- Boolean success test for `Variable.clean`. -/
def Variable.cleanOk (v : Variable) : Bool :=
  match v.clean with
  | .ok _ => true
  | .error _ => false

/-- The dict returned by `Variable.get_validation_rules`: keys `type`
and `required` are always present; `min`, `max` and `choices` are
optional keys, embedded as `Option` fields (`none` = key absent). -/
structure ValidationRules where
  type : String
  required : Bool
  min : Option ℚ
  max : Option ℚ
  choices : Option ChoicesVal
deriving DecidableEq, Repr

/-- Embedding of `Variable.get_validation_rules` (properties/models.py
lines 190-206): `min`/`max` are copied (when set) only for `data_type`
in `['decimal', 'integer']`, and `choices` is copied verbatim when
`data_type == 'choice'` and `choices` is truthy. -/
def Variable.get_validation_rules (v : Variable) : ValidationRules :=
  { type := v.data_type
    required := v.is_required
    min := if v.data_type = "decimal" ∨ v.data_type = "integer" then v.min_value else none
    max := if v.data_type = "decimal" ∨ v.data_type = "integer" then v.max_value else none
    choices := if v.data_type = "choice" ∧ choicesTruthy v.choices = true then v.choices else none }

/-- Insert a `(code, label)` pair into a list sorted by Python tuple
order (first component, then second). -/
def insertPairSorted (p : String × String) : List (String × String) → List (String × String)
  | [] => [p]
  | q :: rest =>
    if p.1 < q.1 ∨ (p.1 = q.1 ∧ p.2 ≤ q.2) then p :: q :: rest
    else q :: insertPairSorted p rest

/-- Embedding of Python's `sorted(d.items())` on an association list. -/
def sortPairs (l : List (String × String)) : List (String × String) :=
  l.foldr insertPairSorted []

/-- Embedding of `Variable.get_choices_display` (properties/models.py
lines 336-352). Python exceptions are modelled as `Except.error` with
the exception text: the ordinal-path lookup `self.choices[code]` raises
`KeyError` when `code` is not a key, raises `TypeError` when `choices`
is stored as a plain list, and the alphabetical path's
`self.choices.items()` raises `AttributeError` on a plain list. -/
def Variable.get_choices_display (v : Variable) : Except String String :=
  if choicesTruthy v.choices = false then
    .ok "N/A"
  else
    match v.choices with
    | none => .ok "N/A"
    | some c =>
      if v.data_type = "qualitativa_ordinal" ∧ orderTruthy v.choice_order = true then
        match c with
        | .map m =>
          ((v.choice_order.getD []).mapM fun code =>
            match List.lookup code m with
            | some desc => Except.ok (code ++ ": " ++ desc)
            | none => Except.error ("KeyError: " ++ code)).map
            (String.intercalate ", ")
        | .list _ => .error "TypeError: list indices must be integers"
      else
        match c with
        | .map m =>
          .ok (String.intercalate ", " ((sortPairs m).map fun p => p.1 ++ ": " ++ p.2))
        | .list _ => .error "AttributeError: list object has no attribute items"

/-- Report printed by both seeding commands: how many
`update_or_create` calls created a record and how many updated one. -/
structure SeedReport where
  created : Nat
  updated : Nat
deriving DecidableEq, Repr

/-- Embedding of the seeding loop shared by `seed_variables.py`
(lines 333-351) and `load_variable_catalog.py` (lines 279-290): each
definition is applied with `Variable.objects.update_or_create(code=...,
defaults=var_data)`, whose `created` flag depends only on whether a
record with that `code` already exists. The store is therefore
abstracted to the list of codes present, and a definition to its
`code` field; a new code is recorded and counted as created, an
existing one leaves the code set unchanged and is counted as updated. -/
def seed (store : List String) (defs : List String) : List String × SeedReport :=
  match defs with
  | [] => (store, ⟨0, 0⟩)
  | c :: rest =>
    if c ∈ store then
      let r := seed store rest
      (r.1, ⟨r.2.created, r.2.updated + 1⟩)
    else
      let r := seed (c :: store) rest
      (r.1, ⟨r.2.created + 1, r.2.updated⟩)

/-- The `code` fields, in source order, of the 25 entries of the
`variables` list in `seed_variables.py` (lines 9-331). -/
def seedVariablesCodes : List String :=
  ["area_total", "area_privativa", "area_terreno", "testada", "topografia",
   "quartos", "suites", "banheiros", "vagas_garagem", "andar",
   "elevador", "piscina", "padrao_construcao", "estado_conservacao",
   "portaria_24h", "distancia_centro", "vista", "frente", "posicao_solar",
   "idade_imovel", "valor_condominio", "iptu_anual", "dic_padrao_alto",
   "dic_padrao_luxo", "dic_vista_mar"]

/-- The `code` fields, in source order, of the 22 entries of the
`variables` list in `load_variable_catalog.py` (lines 9-277). -/
def loadVariableCatalogCodes : List String :=
  ["area_total", "area_privativa", "area_terreno", "frente", "quartos",
   "suites", "banheiros", "vagas", "dist_centro", "dist_metro", "idade",
   "andar", "padrao", "conservacao", "localizacao_qualidade",
   "posicao_quadra", "vista", "orientacao_solar", "elevador", "piscina",
   "churrasqueira", "varanda"]

/-- Baseline record: a quantitative decimal variable with every
optional field absent, used as the template for the concrete test
records below. -/
def blankVar : Variable :=
  { code := "", name := "", data_type := "decimal", unit := "",
    min_value := none, max_value := none, choices := none,
    choice_order := none, is_required := false, parent_variable := none }

/-- The worked example of the spec: a `choice`-typed variable whose
`choices` map `{"a": "Low", "b": "Medium", "c": "High"}` carries the
explicit `choice_order` `["c", "a", "b"]`. -/
def exVarC1 : Variable :=
  { blankVar with
    code := "ex", data_type := "choice",
    choices := some (.map [("a", "Low"), ("b", "Medium"), ("c", "High")]),
    choice_order := some ["c", "a", "b"] }

/-- An ordinal variable with a non-empty choices map. -/
def vOrdNonEmpty : Variable :=
  { blankVar with
    code := "ord1", data_type := "qualitativa_ordinal",
    choices := some (.map [("a", "Low")]) }

/-- A `choice`-typed variable with no options but with well-ordered
numeric bounds. -/
def vChoiceNoChoices : Variable :=
  { blankVar with
    code := "c2", data_type := "choice",
    min_value := some 1, max_value := some 2 }

/-- A decimal variable with inverted bounds, as in the spec's
`min_value = 10, max_value = 5` example. -/
def vInverted : Variable :=
  { blankVar with
    code := "inv", data_type := "decimal",
    min_value := some 10, max_value := some 5 }

/-- A decimal variable still carrying stale choice metadata. -/
def vStaleChoices : Variable :=
  { blankVar with
    code := "c3", data_type := "decimal",
    choices := some (.map [("a", "x")]), choice_order := some ["a"] }

/-- The record `vStaleChoices` after `clean`: `choices` cleared,
`choice_order` untouched. -/
def vStaleCleaned : Variable := { vStaleChoices with
    choices := none }

/-- Variable A of the spec's cyclic-parent example, with
`parent_variable = B`. -/
def varA : Variable :=
  { blankVar with
    code := "A", parent_variable := some "B" }

/-- Variable B of the spec's cyclic-parent example after the proposed
change `parent_variable = A`, which closes the cycle A → B → A. -/
def varBcyc : Variable :=
  { blankVar with
    code := "B", parent_variable := some "A" }

/-- An ordinal variable whose `choice_order` entry `"z"` is not a key
of its `choices` map. -/
def vOrdDangling : Variable :=
  { blankVar with
    code := "dang", data_type := "qualitativa_ordinal",
    choices := some (.map [("a", "Low")]), choice_order := some ["a", "z"] }

/-- An ordinal variable with empty (absent) choices. -/
def vOrdNoChoices : Variable :=
  { blankVar with
    code := "c6o", data_type := "qualitativa_ordinal" }

/-- A nominal variable with empty (absent) choices. -/
def vNomNoChoices : Variable :=
  { blankVar with
    code := "c6n", data_type := "qualitativa_nominal" }

/-- The `area_total` definition of `load_variable_catalog.py`
(lines 11-21): type `quantitativa` with bounds 0 and 100000. -/
def areaTotalQuant : Variable :=
  { blankVar with
    code := "area_total", name := "Área Total",
    data_type := "quantitativa", unit := "m²",
    min_value := some 0, max_value := some 100000, is_required := true }

/-- A `dicotomica`-typed variable with a configured lower bound. -/
def vDicotomica : Variable :=
  { blankVar with
    code := "dic", data_type := "dicotomica",
    min_value := some 0, max_value := some 1 }


/-- Every `update_or_create` call is counted exactly once: the report
always balances against the number of definitions processed. -/
theorem seed_created_add_updated (defs : List String) :
    ∀ store : List String,
      (seed store defs).2.created + (seed store defs).2.updated = defs.length := by
  induction defs with
  | nil => intro store; rfl
  | cons c rest ih =>
    intro store
    by_cases h : c ∈ store
    · simp only [seed, if_pos h, List.length_cons]
      have := ih store
      omega
    · simp only [seed, if_neg h, List.length_cons]
      have := ih (c :: store)
      omega

/-- A code is in the store after seeding iff it was there before or
occurs in the seeded definitions. -/
theorem mem_seed_store (defs : List String) :
    ∀ (store : List String) (a : String),
      a ∈ (seed store defs).1 ↔ a ∈ store ∨ a ∈ defs := by
  induction defs with
  | nil => intro store a; simp [seed]
  | cons c rest ih =>
    intro store a
    by_cases h : c ∈ store
    · simp only [seed, if_pos h]
      rw [ih store a]
      constructor
      · rintro (ha | ha)
        · exact Or.inl ha
        · exact Or.inr (List.mem_cons_of_mem c ha)
      · rintro (ha | ha)
        · exact Or.inl ha
        · rcases List.mem_cons.mp ha with rfl | ha
          · exact Or.inl h
          · exact Or.inr ha
    · simp only [seed, if_neg h]
      rw [ih (c :: store) a]
      simp only [List.mem_cons]
      tauto

/-- Seeding pairwise-distinct definitions none of which is already in
the store creates all of them and updates none. -/
theorem seed_all_new (defs : List String) :
    ∀ store : List String, defs.Nodup → (∀ c ∈ defs, c ∉ store) →
      (seed store defs).2 = ⟨defs.length, 0⟩ := by
  induction defs with
  | nil => intro store _ _; rfl
  | cons c rest ih =>
    intro store hnd hnew
    have hc : c ∉ store := hnew c (List.mem_cons_self c rest)
    simp only [seed, if_neg hc, List.length_cons]
    have hrest : ∀ d ∈ rest, d ∉ c :: store := by
      intro d hd
      rw [List.mem_cons]
      rintro (rfl | hmem)
      · exact (List.nodup_cons.mp hnd).1 hd
      · exact hnew d (List.mem_cons_of_mem c hd) hmem
    rw [ih (c :: store) (List.nodup_cons.mp hnd).2 hrest]

/-- Seeding definitions whose codes are all already present updates
all of them and creates none. -/
theorem seed_all_old (defs : List String) :
    ∀ store : List String, (∀ c ∈ defs, c ∈ store) →
      (seed store defs).2 = ⟨0, defs.length⟩ := by
  induction defs with
  | nil => intro store _; rfl
  | cons c rest ih =>
    intro store hold
    have hc : c ∈ store := hold c (List.mem_cons_self c rest)
    simp only [seed, if_pos hc, List.length_cons]
    rw [ih store fun d hd => hold d (List.mem_cons_of_mem c hd)]

instance {ε α : Type} [DecidableEq ε] [DecidableEq α] : DecidableEq (Except ε α) := fun x y =>
  match x, y with
  | .error e, .error f =>
    if h : e = f then .isTrue (by rw [h]) else .isFalse (fun hh => h (Except.error.inj hh))
  | .ok a, .ok b =>
    if h : a = b then .isTrue (by rw [h]) else .isFalse (fun hh => h (Except.ok.inj hh))
  | .error _, .ok _ => .isFalse (fun hh => Except.noConfusion hh)
  | .ok _, .error _ => .isFalse (fun hh => Except.noConfusion hh)

/-- Characterization of the first branch of `Variable.clean`: the
`choices`-keyed error is raised exactly for a `choice`-typed record
whose `choices` value is falsy. -/
theorem clean_eq_missing_iff (v : Variable) :
    v.clean = .error .missingChoices
      ↔ (v.data_type = "choice" ∧ choicesTruthy v.choices = false) := by
  unfold Variable.clean
  split_ifs with h1 h2 h3 <;> simp_all

/-- Characterization of the second branch of `Variable.clean` for
records that pass the choices check: the `max_value`-keyed error is
raised exactly when the stored bounds are both present and inverted. -/
theorem clean_eq_inverted_iff (v : Variable)
    (hch : v.data_type = "choice" → choicesTruthy v.choices = true) :
    v.clean = .error .invertedBounds ↔ minGtMax v.min_value v.max_value = true := by
  unfold Variable.clean
  split_ifs with h1 h2 h3 <;> simp_all

/-- C6 (amended): `Variable.clean` raises the MissingChoices error iff
`data_type` is exactly `'choice'` and `choices` is empty or absent; the
other choice-like types are not covered by the check, so an ordinal or
nominal variable with absent choices passes validation unchanged. -/
theorem missing_choices_only_for_choice_type (v : Variable) :
    (v.clean = .error .missingChoices
      ↔ (v.data_type = "choice" ∧ choicesTruthy v.choices = false))
    ∧ vOrdNoChoices.clean = .ok vOrdNoChoices
    ∧ vNomNoChoices.clean = .ok vNomNoChoices :=
  ⟨clean_eq_missing_iff v, rfl, rfl⟩

/-- C6 counterexample: a `qualitativa_ordinal` (choice-like) variable
with absent `choices` passes `Variable.clean` instead of failing with
the MissingChoices error, refuting the claim that every choice-like
type with empty choices fails validation. -/
theorem missing_choices_counterexample :
    vOrdNoChoices.data_type = "qualitativa_ordinal"
    ∧ choicesTruthy vOrdNoChoices.choices = false
    ∧ vOrdNoChoices.clean = .ok vOrdNoChoices
    ∧ vOrdNoChoices.clean ≠ .error .missingChoices
    ∧ vNomNoChoices.clean = .ok vNomNoChoices :=
  ⟨rfl, rfl, rfl, by decide, rfl⟩

/-- C2 (amended): for a Variable with both bounds present that passes
the choices check (the check that precedes the bounds check in
`Variable.clean`), validation fails with the InvertedBounds error (a
`ValidationError` keyed on the `max_value` field) iff
`min_value > max_value`, and succeeds when `min_value ≤ max_value`. -/
theorem bounds_check_spec (v : Variable) (mn mx : ℚ)
    (hmn : v.min_value = some mn) (hmx : v.max_value = some mx)
    (hch : v.data_type = "choice" → choicesTruthy v.choices = true) :
    (v.clean = .error .invertedBounds ↔ mn > mx)
    ∧ (¬ mn > mx → v.cleanOk = true) := by
  have hmm : minGtMax v.min_value v.max_value = decide (mn > mx) := by
    rw [hmn, hmx]
    rfl
  constructor
  · rw [clean_eq_inverted_iff v hch, hmm, decide_eq_true_iff]
  · intro hgt
    have h2 : minGtMax v.min_value v.max_value = false := by
      rw [hmm]
      exact decide_eq_false hgt
    unfold Variable.cleanOk Variable.clean
    split_ifs <;> simp_all

/-- C2 witness: the spec's own example record with `min_value = 10`
and `max_value = 5` fails validation with the InvertedBounds error. -/
theorem bounds_check_spec_witness :
    vInverted.min_value = some 10 ∧ vInverted.max_value = some 5
    ∧ (vInverted.data_type = "choice" → choicesTruthy vInverted.choices = true)
    ∧ ((vInverted.clean = .error .invertedBounds ↔ (10 : ℚ) > 5)
       ∧ (¬ (10 : ℚ) > 5 → vInverted.cleanOk = true)) :=
  ⟨rfl, rfl, by decide, bounds_check_spec vInverted 10 5 rfl rfl (by decide)⟩

/-- C2 counterexample: a `choice`-typed record with no options and
well-ordered bounds (1 ≤ 2) still fails `Variable.clean` — with the
MissingChoices error rather than InvertedBounds — so with both bounds
present, validation failure is not equivalent to
`min_value > max_value`. -/
theorem bounds_check_counterexample :
    vChoiceNoChoices.min_value = some 1 ∧ vChoiceNoChoices.max_value = some 2
    ∧ ((1 : ℚ) ≤ 2)
    ∧ vChoiceNoChoices.clean = .error .missingChoices
    ∧ vChoiceNoChoices.clean ≠ .error .invertedBounds :=
  ⟨rfl, rfl, by decide, rfl, by decide⟩

/-- C3 (amended): for a Variable whose `data_type` is not `'choice'`,
successful validation clears `choices` to `None` but leaves
`choice_order` untouched, and the normalization is idempotent: cleaning
the cleaned record succeeds again and leaves it unchanged. -/
theorem clean_normalization (v w : Variable) (hdt : v.data_type ≠ "choice")
    (h : v.clean = .ok w) :
    w.choices = none ∧ w.choice_order = v.choice_order ∧ w.clean = .ok w := by
  cases v with
  | mk code name dt unit mn mx ch co req par =>
    unfold Variable.clean at h
    dsimp only at h hdt
    rw [if_neg (fun hc => hdt hc.1)] at h
    by_cases h2 : minGtMax mn mx
    · rw [if_pos h2] at h
      exact absurd h (by simp)
    · rw [if_neg h2, if_pos hdt] at h
      have hw : w = ⟨code, name, dt, unit, mn, mx, none, co, req, par⟩ :=
        (Except.ok.inj h).symm
      subst hw
      refine ⟨rfl, rfl, ?_⟩
      unfold Variable.clean
      dsimp only
      rw [if_neg (fun hc => hdt hc.1), if_neg h2, if_pos hdt]

/-- C3 witness: a decimal variable carrying stale choice metadata is
cleaned into `vStaleCleaned`, whose `choices` is gone, whose
`choice_order` survives, and which cleans to itself. -/
theorem clean_normalization_witness :
    vStaleChoices.data_type ≠ "choice"
    ∧ vStaleChoices.clean = .ok vStaleCleaned
    ∧ (vStaleCleaned.choices = none
       ∧ vStaleCleaned.choice_order = vStaleChoices.choice_order
       ∧ vStaleCleaned.clean = .ok vStaleCleaned) :=
  ⟨by decide, rfl, clean_normalization vStaleChoices vStaleCleaned (by decide) rfl⟩

/-- C3 counterexample: cleaning a decimal variable with
`choice_order = ["a"]` clears `choices` but leaves
`choice_order = ["a"]` in place, refuting the claim that validation
clears both fields. -/
theorem clean_normalization_counterexample :
    vStaleChoices.choice_order = some ["a"]
    ∧ vStaleChoices.clean = .ok vStaleCleaned
    ∧ vStaleCleaned.choice_order = some ["a"]
    ∧ vStaleCleaned.choice_order ≠ none :=
  ⟨rfl, rfl, rfl, by decide⟩

/-- C4 (amended): `Variable.clean` performs no parent-cycle check at
all — its verdict is independent of `parent_variable` (the outcome for
any record with its parent field overwritten is the outcome for the
original record with the same overwrite applied to the result), and in
particular, with Variable A already pointing at B, the proposed change
giving B `parent_variable = A` passes validation instead of failing. -/
theorem clean_ignores_parent (v : Variable) (p : Option String) :
    ({ v with parent_variable := p } : Variable).clean
      = Except.map (fun w => { w with parent_variable := p }) v.clean
    ∧ varA.parent_variable = some "B"
    ∧ varBcyc.parent_variable = some "A"
    ∧ varBcyc.clean = .ok varBcyc := by
  refine ⟨?_, rfl, rfl, rfl⟩
  cases v
  unfold Variable.clean
  dsimp only
  split_ifs <;> rfl

/-- C4 counterexample: the spec's cyclic-parent example. A has parent
B; the record of B with `parent_variable = A` (closing the cycle)
passes `Variable.clean` successfully, so no CyclicParent failure is
raised. -/
theorem cyclic_parent_counterexample :
    varA.parent_variable = some "B"
    ∧ varBcyc.parent_variable = some "A"
    ∧ varBcyc.clean = .ok varBcyc
    ∧ varBcyc.cleanOk = true :=
  ⟨rfl, rfl, rfl, rfl⟩

/-- C5 (amended): `Variable.clean` never reads `choice_order` — its
verdict is independent of that field — so a `choice_order` entry absent
from the keys of `choices` never causes a validation failure and no
DanglingChoiceOrder error exists in the code. -/
theorem clean_ignores_choice_order (v : Variable) (o : Option (List String)) :
    ({ v with choice_order := o } : Variable).clean
      = Except.map (fun w => { w with choice_order := o }) v.clean := by
  cases v
  unfold Variable.clean
  dsimp only
  split_ifs <;> rfl

/-- C5 counterexample: an ordinal variable whose `choice_order` entry
`"z"` is not a key of its `choices` map passes `Variable.clean`
successfully instead of failing with a DanglingChoiceOrder error. -/
theorem dangling_choice_order_counterexample :
    vOrdDangling.choice_order = some ["a", "z"]
    ∧ vOrdDangling.choices = some (ChoicesVal.map [("a", "Low")])
    ∧ List.lookup "z" [("a", "Low")] = none
    ∧ vOrdDangling.cleanOk = true :=
  ⟨rfl, rfl, rfl, rfl⟩

/-- C7 (amended): for a definitions list whose codes are pairwise
distinct, seeding against an empty store creates every definition and
updates none; re-seeding the identical list against the resulting store
creates none and updates all; and against any store the report counts
always sum to the number of definitions processed. -/
theorem seed_idempotence (L s : List String) (h : L.Nodup) :
    ((seed s L).2.created + (seed s L).2.updated = L.length)
    ∧ (seed [] L).2 = ⟨L.length, 0⟩
    ∧ (seed (seed [] L).1 L).2 = ⟨0, L.length⟩ := by
  refine ⟨seed_created_add_updated L s, seed_all_new L [] h (by simp), ?_⟩
  exact seed_all_old L (seed [] L).1
    fun c hc => (mem_seed_store L [] c).mpr (Or.inr hc)

/-- C7 witness: seeding the two-element list `["a", "b"]`. -/
theorem seed_idempotence_witness :
    (["a", "b"] : List String).Nodup
    ∧ (((seed ["x"] ["a", "b"]).2.created
          + (seed ["x"] ["a", "b"]).2.updated = (["a", "b"] : List String).length)
       ∧ (seed [] ["a", "b"]).2 = ⟨(["a", "b"] : List String).length, 0⟩
       ∧ (seed (seed [] ["a", "b"]).1 ["a", "b"]).2
           = ⟨0, (["a", "b"] : List String).length⟩) :=
  ⟨by decide, seed_idempotence ["a", "b"] ["x"] (by decide)⟩

/-- C7 counterexample: a definitions list with a repeated code. Against
an empty store the first occurrence is created and the second updates
it, so the report is `(created = 1, updated = 1)`, not
`(created = 2, updated = 0)` as the claim requires for every list. -/
theorem seed_duplicate_counterexample :
    (seed [] ["dup", "dup"]).2 = ⟨1, 1⟩
    ∧ (seed [] ["dup", "dup"]).2 ≠ ⟨2, 0⟩ :=
  ⟨rfl, by decide⟩

/-- C8 (amended): the repository ships two reference catalogs, of 25
definitions (`seed_variables.py`) and 22 definitions
(`load_variable_catalog.py`), each with pairwise-distinct codes;
seeding either twice against an empty store reports
`(created = n, updated = 0)` then `(created = 0, updated = n)` for its
own length n — 25 respectively 22, not 24. -/
theorem catalog_seed_reports :
    seedVariablesCodes.length = 25
    ∧ loadVariableCatalogCodes.length = 22
    ∧ (seed [] seedVariablesCodes).2 = ⟨25, 0⟩
    ∧ (seed (seed [] seedVariablesCodes).1 seedVariablesCodes).2 = ⟨0, 25⟩
    ∧ (seed [] loadVariableCatalogCodes).2 = ⟨22, 0⟩
    ∧ (seed (seed [] loadVariableCatalogCodes).1 loadVariableCatalogCodes).2 = ⟨0, 22⟩ :=
  ⟨rfl, rfl, rfl, rfl, rfl, rfl⟩

/-- C8 counterexample: neither shipped catalog has 24 definitions, so
neither first run reports `created = 24`: the `seed_variables.py`
catalog creates 25 records and the `load_variable_catalog.py` catalog
creates 22. -/
theorem catalog_size_counterexample :
    (seed [] seedVariablesCodes).2.created = 25
    ∧ (seed [] loadVariableCatalogCodes).2.created = 22
    ∧ (seed [] seedVariablesCodes).2.created ≠ 24
    ∧ (seed [] loadVariableCatalogCodes).2.created ≠ 24 :=
  ⟨rfl, rfl, by decide, by decide⟩

/-- C1 (amended): the dict returned by `get_validation_rules` contains
a `choices` key iff `data_type` is exactly `'choice'` (ordinal and
nominal types get no entry) and `choices` is truthy; the entry is the
stored `choices` value copied verbatim, in stored (insertion) order,
and `choice_order` has no influence on the returned rules. -/
theorem rules_choices_spec (v : Variable) :
    (((v.get_validation_rules).choices ≠ none)
      ↔ (v.data_type = "choice" ∧ choicesTruthy v.choices = true))
    ∧ (∀ o : Option (List String),
        (({ v with choice_order := o } : Variable).get_validation_rules)
          = v.get_validation_rules)
    ∧ ((v.get_validation_rules).choices
        = if v.data_type = "choice" ∧ choicesTruthy v.choices = true
          then v.choices else none) := by
  refine ⟨?_, fun o => rfl, rfl⟩
  unfold Variable.get_validation_rules
  dsimp only
  by_cases h : v.data_type = "choice" ∧ choicesTruthy v.choices = true
  · rw [if_pos h]
    simp only [h, and_self, iff_true]
    cases hc : v.choices with
    | none => rw [hc] at h; simp [choicesTruthy] at h
    | some c => simp
  · rw [if_neg h]
    simp [h]

/-- C1 counterexample: on the spec's worked example (`choice`-typed,
choices a→Low, b→Medium, c→High, order c,a,b) the derived `choices`
entry is the stored mapping verbatim in insertion order a,b,c — neither
the reordered mapping c,a,b nor the label list ["High","Low","Medium"]
required by the claim — and an ordinal (choice-like) variable with
non-empty choices gets no `choices` entry at all. -/
theorem rules_choices_counterexample :
    (exVarC1.get_validation_rules).choices
      = some (ChoicesVal.map [("a", "Low"), ("b", "Medium"), ("c", "High")])
    ∧ (exVarC1.get_validation_rules).choices
        ≠ some (ChoicesVal.map [("c", "High"), ("a", "Low"), ("b", "Medium")])
    ∧ (exVarC1.get_validation_rules).choices
        ≠ some (ChoicesVal.list ["High", "Low", "Medium"])
    ∧ exVarC1.choice_order = some ["c", "a", "b"]
    ∧ (vOrdNonEmpty.get_validation_rules).choices = none :=
  ⟨rfl, by decide, by decide, rfl, rfl⟩

/-- C9: `get_validation_rules` copies the stored bounds into `min` and
`max` keys only for `data_type` exactly `'decimal'` or `'integer'`; for
any other type — in particular `quantitativa` (the numeric type of the
`load_variable_catalog.py` schema) and `dicotomica` — the returned dict
has no `min` or `max` key even when bounds are configured. -/
theorem rules_bounds_dropped (v : Variable)
    (h : ¬ (v.data_type = "decimal" ∨ v.data_type = "integer")) :
    ((v.get_validation_rules).min = none ∧ (v.get_validation_rules).max = none)
    ∧ ((areaTotalQuant.get_validation_rules).min = none
       ∧ (areaTotalQuant.get_validation_rules).max = none)
    ∧ ((vDicotomica.get_validation_rules).min = none
       ∧ (vDicotomica.get_validation_rules).max = none) := by
  refine ⟨?_, ⟨rfl, rfl⟩, ⟨rfl, rfl⟩⟩
  unfold Variable.get_validation_rules
  dsimp only
  rw [if_neg h, if_neg h]
  exact ⟨rfl, rfl⟩

/-- C9 witness: the `area_total` definition of
`load_variable_catalog.py` has type `quantitativa` with bounds 0 and
100000 configured, yet its derived rules carry no `min` or `max`. -/
theorem rules_bounds_dropped_witness :
    (¬ (areaTotalQuant.data_type = "decimal"
        ∨ areaTotalQuant.data_type = "integer"))
    ∧ areaTotalQuant.min_value = some 0
    ∧ areaTotalQuant.max_value = some 100000
    ∧ (((areaTotalQuant.get_validation_rules).min = none
        ∧ (areaTotalQuant.get_validation_rules).max = none)
       ∧ ((areaTotalQuant.get_validation_rules).min = none
          ∧ (areaTotalQuant.get_validation_rules).max = none)
       ∧ ((vDicotomica.get_validation_rules).min = none
          ∧ (vDicotomica.get_validation_rules).max = none)) :=
  ⟨by decide, rfl, rfl, rules_bounds_dropped areaTotalQuant (by decide)⟩

/-- C10: there is a Variable state — ordinal type, non-empty choices
map, a `choice_order` entry `"z"` that is not a key of `choices` — that
`Variable.clean` accepts, on which `get_choices_display` raises
`KeyError`, because the lookup `self.choices[code]` over the
`choice_order` entries is unguarded. -/
theorem display_keyerror_on_dangling_order :
    vOrdDangling.data_type = "qualitativa_ordinal"
    ∧ choicesTruthy vOrdDangling.choices = true
    ∧ vOrdDangling.choice_order = some ["a", "z"]
    ∧ List.lookup "z" [("a", "Low")] = none
    ∧ vOrdDangling.cleanOk = true
    ∧ vOrdDangling.get_choices_display = .error "KeyError: z" :=
  ⟨rfl, rfl, rfl, rfl, rfl, rfl⟩
